import Mathlib

/-!
Verification of the Dealls mentoring UI test suite core logic:
a shallow embedding of the page-object layer (`BasePage`, `MentoringPage`)
and the configuration module (`test-config.ts`), with theorems settling the
behavioural claims about selector resolution, search-result stabilization,
input verification, mentor counting, visibility probing and configuration
selection.

Conventions of the embedding:
* JavaScript strings are Lean `String`; `String.includes` is modelled by
  list-infix containment on the character list; `toLowerCase`/`trim` are
  modelled character-wise on the character list (`strToLower`, `strTrim`).
* Promise-returning operations that can reject are modelled as
  `Except String α`; a `try { … } catch { … }` that swallows the error is
  modelled by matching on the `Except` (or on an `Option` for operations
  whose failure is always swallowed).
* Wall-clock time is an explicit `Nat` millisecond counter threaded through
  the waiting operations; `page.waitForTimeout(d)` advances it by `d`.
* The browser page is an abstract environment record: each way the page can
  answer a driver query (visibility of a selector, number of elements
  matching a selector, value read back from a field) is a field of the
  record, so theorems quantify over all possible page behaviours.
-/

namespace DeallsQA

/-! ### BasePage (src/pages/base-page.ts) -/

/-- Models `BasePage.isElementVisible` (base-page.ts lines 102–109): the
outcome of `locator.waitFor` (state visible, with timeout) is passed in as
an `Except`; the method returns `true` on success and converts any failure
into `false` instead of rethrowing. -/
def isElementVisible (waitResult : Except String Unit) : Bool :=
  match waitResult with
  | .ok _ => true
  | .error _ => false

/-- An input field as `BasePage.typeText` observes it: whether
`waitForElement` finds it visible in time, and the value `inputValue()`
reads back as a function of the text passed to `fill` (the identity for a
well-behaved field; anything else for a field that masks or reformats). -/
structure InputField where
  visibleInTime : Bool
  valueAfterFill : String → String

/-- The inner verification-failure message of `typeText`
(base-page.ts line 90). -/
def mismatchMsg (text actual : String) : String :=
  "Text verification failed. Expected: \"" ++ text ++ "\", Actual: \"" ++ actual ++ "\""

/-- The outer wrapper message of the catch block of `typeText`
(base-page.ts line 93). -/
def wrapTypeErr (text inner : String) : String :=
  "Failed to type text \"" ++ text ++ "\": " ++ inner

/-- Models `BasePage.typeText` (base-page.ts lines 73–95): wait for the
field, clear and fill it, read the value back, and fail when the read-back
differs from the input; every inner error is wrapped by the catch block. -/
def typeText (fld : InputField) (text : String) : Except String Unit :=
  if !fld.visibleInTime then
    .error (wrapTypeErr text "Element not found within 30000ms")
  else
    let inputValue := fld.valueAfterFill text
    if inputValue ≠ text then
      .error (wrapTypeErr text (mismatchMsg text inputValue))
    else
      .ok ()

/-! ### Title check of `MentoringPage.verifyPageLoaded` (part_001 lines 97–101) -/

/-- JavaScript `String.prototype.includes`, modelled as infix containment of
character lists. -/
def includes (s sub : String) : Bool := decide (sub.toList <:+: s.toList)

/-- JavaScript `String.prototype.toLowerCase`, modelled character-wise on
the character list. -/
def strToLower (s : String) : String := String.mk (s.toList.map Char.toLower)

/-- Models the title check of `MentoringPage.verifyPageLoaded`
(part_001 lines 97–101): lower-case the rendered title and throw a
title-mismatch error unless it contains one of the markers "mentoring",
"mentor" or "karir". -/
def titleCheck (title : String) : Except String Unit :=
  let titleLower := strToLower title
  if !includes titleLower "mentoring" && !includes titleLower "mentor"
      && !includes titleLower "karir" then
    .error ("Page title does not indicate mentoring page. Actual title: \"" ++ title ++ "\"")
  else
    .ok ()

/-! ### MentoringPage.getMentorCount (part_001 lines 266–315) -/

/-- The candidate mentor-card selectors tried by `getMentorCount`
(part_001 lines 273–278), in source order. -/
def cardSelectors : List String :=
  [".mentor-card", ".mentor-item", ".card", ".profile-card",
   "[data-testid*=\"mentor\"]", ".mentor", "[class*=\"mentor\"]",
   ".grid > div", ".flex > div", "[class*=\"grid\"] > div",
   ".container > div", ".content > div"]

/-- The no-results indicator selectors checked by `getMentorCount`
(part_001 lines 301–304), in source order. -/
def noResultsSelectors : List String :=
  [".no-results", ".empty-state", "[data-testid=\"no-results\"]",
   ".empty", ".not-found", "[class*=\"empty\"]"]

/-- A results page as `getMentorCount` observes it: `page.$$(sel)` either
throws (`none`, swallowed by the per-selector catch) or returns the number
of elements matching `sel`, and the `isElementVisible` probe on a
no-results selector answers a boolean (it never throws, see
`isElementVisible`). -/
structure ResultsPage where
  query : String → Option Nat
  visible : String → Bool

/-- One iteration of the selector loop of `getMentorCount`
(part_001 lines 283–293): query the selector, keep the running maximum,
and swallow a throwing query. -/
def maxCountStep (q : String → Option Nat) (acc : Nat) (sel : String) : Nat :=
  match q sel with
  | some n => if n > acc then n else acc
  | none => acc

/-- Models `MentoringPage.getMentorCount` (part_001 lines 266–315): take the
maximum element count over all candidate card selectors (a throwing query
is caught and skipped), and when that maximum is zero scan the no-results
selectors, returning 0 on the first visible one — otherwise return the
maximum (which is then 0 anyway). Modelled in `Except` so "does not throw"
is the provable statement that the result is an `Except.ok`. -/
def getMentorCount (pg : ResultsPage) : Except String Nat :=
  let maxCount := cardSelectors.foldl (maxCountStep pg.query) 0
  if maxCount > 0 then
    .ok maxCount
  else if noResultsSelectors.any pg.visible then
    .ok 0
  else
    .ok maxCount

/-! ### Test configuration (src/config/test-config.ts) -/

/-- The timeout tiers of `TestConfig` (test-config.ts lines 7–13). -/
structure Timeouts where
  short : Nat
  medium : Nat
  long : Nat
  pageLoad : Nat
  apiRequest : Nat

/-- The URL bundle of `TestConfig` (test-config.ts lines 14–17). -/
structure Urls where
  base : String
  mentoring : String

/-- A viewport preset (test-config.ts lines 18–22). -/
structure Viewport where
  width : Nat
  height : Nat

/-- The viewport presets of `TestConfig`. -/
structure Viewports where
  desktop : Viewport
  tablet : Viewport
  mobile : Viewport

/-- The retry counts of `TestConfig` (test-config.ts lines 24–27). -/
structure Retries where
  ci : Nat
  «local» : Nat

/-- The screenshot toggles of `TestConfig` (test-config.ts lines 28–32). -/
structure Screenshots where
  onFailure : Bool
  onSuccess : Bool
  fullPage : Bool

/-- The video quality setting of `TestConfig` (test-config.ts line 35). -/
inductive VideoQuality where
  | low
  | medium
  | high

/-- The video settings of `TestConfig` (test-config.ts lines 33–36). -/
structure Videos where
  enabled : Bool
  quality : VideoQuality

/-- Models the `TestConfig` interface (test-config.ts lines 6–37). -/
structure TestConfig where
  timeouts : Timeouts
  urls : Urls
  viewports : Viewports
  browsers : List String
  retries : Retries
  screenshots : Screenshots
  videos : Videos

/-- Models `defaultTestConfig` (test-config.ts lines 42–73). -/
def defaultTestConfig : TestConfig where
  timeouts := ⟨5000, 15000, 30000, 30000, 10000⟩
  urls := ⟨"https://job-portal-user-dev-skx7zw44dq-et.a.run.app", "/mentoring"⟩
  viewports := ⟨⟨1920, 1080⟩, ⟨1024, 768⟩, ⟨375, 667⟩⟩
  browsers := ["chromium", "firefox", "webkit"]
  retries := ⟨2, 1⟩
  screenshots := ⟨true, false, true⟩
  videos := ⟨true, VideoQuality.medium⟩

/-- Models `environmentConfigs.development` (test-config.ts lines 79–85):
the default config with the development base URL spread over `urls`. -/
def environmentConfigs_development : TestConfig :=
  { defaultTestConfig with
      urls := ⟨"https://job-portal-user-dev-skx7zw44dq-et.a.run.app", "/mentoring"⟩ }

/-- Models `environmentConfigs.staging` (test-config.ts lines 86–92). -/
def environmentConfigs_staging : TestConfig :=
  { defaultTestConfig with
      urls := ⟨"https://staging.dealls.com", "/mentoring"⟩ }

/-- Models `environmentConfigs.production` (test-config.ts lines 93–103):
also overrides the retry counts. -/
def environmentConfigs_production : TestConfig :=
  { defaultTestConfig with
      urls := ⟨"https://dealls.com", "/mentoring"⟩
      retries := ⟨3, 2⟩ }

/-- Models `getTestConfig` (test-config.ts lines 109–120): its argument is
the value of the single selection environment variable `TEST_ENV`
(`none` when unset). The JavaScript `process.env.TEST_ENV || “development”`
also replaces the falsy empty string by `"development"`; the `switch` maps
`"staging"` and `"production"` to their profiles and everything else to the
development profile. -/
def getTestConfig (testEnv : Option String) : TestConfig :=
  let environment :=
    match testEnv with
    | none => "development"
    | some s => if s = "" then "development" else s
  if environment = "staging" then environmentConfigs_staging
  else if environment = "production" then environmentConfigs_production
  else environmentConfigs_development

/-! ### MentoringPage.searchMentors (part_001 lines 168–236) -/

/-- JavaScript `String.prototype.trim`, modelled character-wise: drop
whitespace from both ends of the character list. -/
def strTrim (s : String) : String :=
  String.mk (((s.toList.dropWhile Char.isWhitespace).reverse.dropWhile Char.isWhitespace).reverse)

/-- The candidate search-input selectors tried by `searchMentors`
(part_001 lines 179–187), in source order. -/
def searchSelectors : List String :=
  ["input[type=\"search\"]",
   "input[placeholder*=\"search\" i]",
   "input[placeholder*=\"cari\" i]",
   "input[placeholder*=\"mentor\" i]",
   ".search-input",
   "[data-testid*=\"search\"]",
   "input[name*=\"search\"]"]

/-- The candidate search-button selectors tried by `searchMentors`
(part_001 lines 210–216), in source order. -/
def searchButtonSelectors : List String :=
  ["button[type=\"submit\"]",
   "button:has-text(\"Search\")",
   "button:has-text(\"Cari\")",
   ".search-button",
   "[data-testid*=\"search-button\"]"]

/-- One driver interaction performed by `searchMentors`, recorded in order
of occurrence. -/
inductive DriverAction where
  | waitPageLoad
  | probeInput (sel : String)
  | typeInto (sel : String) (text : String)
  | probeButton (sel : String)
  | clickButton (sel : String)
  | pressEnter (sel : String)
  | waitResults
deriving DecidableEq

/-- A page as `searchMentors` observes it: visibility answers for the
search-input probes (2000 ms timeout) and search-button probes (1000 ms
timeout), the input field behind each selector (for `typeText`), whether
clicking a button succeeds, and whether the initial `waitForPageLoad`
settles in time. -/
structure SearchPage where
  pageLoadOk : Bool
  inputVisible : String → Bool
  buttonVisible : String → Bool
  fieldOf : String → InputField
  clickOk : String → Bool

/-- The first-visible-candidate scan used by the selector loops of `searchMentors` (part_001 lines 192–199 and 220–228): walk the candidates in order
and return the first one whose visibility probe answers true. -/
def resolveFirst (vis : String → Bool) : List String → Option String
  | [] => none
  | sel :: rest => if vis sel then some sel else resolveFirst vis rest

/-- The selectors actually probed by the scan: every candidate up to and
including the first visible one (all of them when none is visible). -/
def probesTaken (vis : String → Bool) : List String → List String
  | [] => []
  | sel :: rest => if vis sel then [sel] else sel :: probesTaken vis rest

/-- Models `MentoringPage.searchMentors` (part_001 lines 168–236), paired
with the ordered list of driver interactions it performs: reject an empty
or whitespace-only keyword before touching the driver; wait for the page
to load; probe the search-input candidates in order and bind to the first
visible one (failing when none is); type the keyword into it via
`typeText`; then probe the search-button candidates in order, clicking the
first visible one, or pressing Enter in the input when none is visible;
finally wait for the search results. -/
def searchMentors (pg : SearchPage) (keyword : String) :
    Except String Unit × List DriverAction :=
  if keyword = "" ∨ strTrim keyword = "" then
    (.error "Search keyword cannot be empty", [])
  else if !pg.pageLoadOk then
    (.error "Page failed to load within 30000ms", [DriverAction.waitPageLoad])
  else
    let inputProbes :=
      (probesTaken pg.inputVisible searchSelectors).map DriverAction.probeInput
    let preTrace := DriverAction.waitPageLoad :: inputProbes
    match resolveFirst pg.inputVisible searchSelectors with
    | none => (.error "Search input not available on the page", preTrace)
    | some sel =>
      let typedTrace := preTrace ++ [DriverAction.typeInto sel keyword]
      match typeText (pg.fieldOf sel) keyword with
      | .error e => (.error e, typedTrace)
      | .ok _ =>
        let btnProbes :=
          (probesTaken pg.buttonVisible searchButtonSelectors).map DriverAction.probeButton
        match resolveFirst pg.buttonVisible searchButtonSelectors with
        | some btn =>
          if pg.clickOk btn then
            (.ok (), typedTrace ++ btnProbes
              ++ [DriverAction.clickButton btn, DriverAction.waitResults])
          else
            (.error ("Failed to click element " ++ btn),
              typedTrace ++ btnProbes ++ [DriverAction.clickButton btn])
        | none =>
          (.ok (), typedTrace ++ btnProbes
            ++ [DriverAction.pressEnter sel, DriverAction.waitResults])

/-! ### Stabilization phase of `waitForSearchResults` (part_001 lines 553–566) -/

/-- The fixed settle delay between the two count samples of
`waitForSearchResults` (part_001 lines 558 and 565): 2000 ms. -/
def settleDelay : Nat := 2000

/-- Outcome of the stabilization phase: the accepted value (the second
sampled count), every count sample taken in order, and the wall-clock time
at which the phase ends. -/
structure StabResult where
  value : Nat
  samples : List Nat
  endTime : Nat
deriving DecidableEq

/-- One `getMentorCount()` call reduced to its fixed initial `wait(2000)`
(part_001 line 270): the sampled value is the count of the page at the
post-wait instant, with `count` giving the mentor count of the page as a
function of the clock. This coarse per-sample clock accounts only that
fixed wait; it supports `stabilizeResults`, whose conclusions of interest
— how many samples are taken and which explicit settle-delay waits the
phase performs — do not depend on the duration of a sample. The full
per-sample wall-clock accounting, including the no-results visibility
scans of `getMentorCount`, is `getMentorCountTimed` below. -/
def sampleCountAt (count : Nat → Nat) (t : Nat) : Nat × Nat :=
  (count (t + 2000), t + 2000)

/-- Models the stabilization phase of `MentoringPage.waitForSearchResults`
(part_001 lines 553–566): wait 3000 ms for content, sample the mentor
count, wait the settle delay, resample; when the two samples are equal the
value is accepted immediately, otherwise one additional settle-delay wait
is performed — without taking any further sample — and the second value is
accepted. Its clock counts the explicit waits of `waitForSearchResults`
plus the fixed in-sample wait of `sampleCountAt`; wall-clock bounds over
the complete in-sample waiting are stated on `stabilizeResultsTimed`. -/
def stabilizeResults (count : Nat → Nat) (t0 : Nat) : StabResult :=
  let t1 := t0 + 3000
  let s1 := sampleCountAt count t1
  let t2 := s1.2 + settleDelay
  let s2 := sampleCountAt count t2
  if s1.1 = s2.1 then
    ⟨s2.1, [s1.1, s2.1], s2.2⟩
  else
    ⟨s2.1, [s1.1, s2.1], s2.2 + settleDelay⟩

/-- The no-results visibility scan of `getMentorCount` (part_001 lines
306–311) with its wall-clock cost: each `isElementVisible` probe is called
without an explicit timeout, so it uses the default 5000 ms (base-page.ts
line 102); a probe of a visible indicator returns at once and ends the
scan (the early `return 0`), a probe of an invisible one blocks for the
full timeout before the loop moves on. The page is consulted at the start
instant of each probe. Returns the clock after the scan. -/
def noResultsScan (pageAt : Nat → ResultsPage) (t : Nat) : List String → Nat
  | [] => t
  | sel :: rest =>
    if (pageAt t).visible sel then t
    else noResultsScan pageAt (t + 5000) rest

/-- One `getMentorCount()` call (part_001 lines 266–315) with full
wall-clock accounting: the fixed initial `wait(2000)`, the instantaneous
`page.$$` queries against the page at the post-wait instant, and — when
every candidate card selector matches zero elements — the no-results
visibility scan, whose invisible probes block 5000 ms each. `pageAt` gives
the page state as a function of the clock. Returns the counted value and
the advanced clock. -/
def getMentorCountTimed (pageAt : Nat → ResultsPage) (t : Nat) : Nat × Nat :=
  let t1 := t + 2000
  let pg := pageAt t1
  let maxCount := cardSelectors.foldl (maxCountStep pg.query) 0
  if maxCount > 0 then (maxCount, t1)
  else (0, noResultsScan pageAt t1 noResultsSelectors)

/-- Models the stabilization phase of `MentoringPage.waitForSearchResults`
(part_001 lines 553–566) with full per-sample wall-clock accounting via
`getMentorCountTimed`: wait 3000 ms for content, sample, wait the settle
delay, resample; equal samples are accepted immediately, unequal samples
incur exactly one extra settle-delay wait and no further sample. -/
def stabilizeResultsTimed (pageAt : Nat → ResultsPage) (t0 : Nat) : StabResult :=
  let t1 := t0 + 3000
  let s1 := getMentorCountTimed pageAt t1
  let t2 := s1.2 + settleDelay
  let s2 := getMentorCountTimed pageAt t2
  if s1.1 = s2.1 then
    ⟨s2.1, [s1.1, s2.1], s2.2⟩
  else
    ⟨s2.1, [s1.1, s2.1], s2.2 + settleDelay⟩

/-! ### Theorems -/

/-- C8: `isElementVisible` never throws — it is a total boolean probe that
returns `true` exactly when the visibility wait succeeded and converts
every wait failure into the return value `false`. -/
theorem isElementVisible_total_probe :
    isElementVisible (.ok ()) = true ∧
    ∀ e : String, isElementVisible (.error e) = false :=
  ⟨rfl, fun _ => rfl⟩

/-- C5: `typeText` reads the field back after filling it; it never returns
successfully while the field holds a value different from the input text,
and whenever the read-back diverges (on a field that was found in time) it
fails with the verification-mismatch error. -/
theorem typeText_verifies_readback (fld : InputField) (text : String) :
    (typeText fld text = .ok () → fld.valueAfterFill text = text) ∧
    (fld.visibleInTime = true → fld.valueAfterFill text ≠ text →
      typeText fld text = .error (wrapTypeErr text (mismatchMsg text (fld.valueAfterFill text)))) := by
  constructor
  · intro h
    by_contra hne
    simp only [typeText] at h
    rcases hv : fld.visibleInTime with _ | _
    · simp [hv] at h
    · simp [hv, hne] at h
  · intro hv hne
    simp [typeText, hv, hne]

/-- Witness for C5: a field that appends a character to everything filled
into it makes `typeText` fail with the verification-mismatch error. -/
theorem typeText_verifies_readback_witness :
    typeText ⟨true, fun s => s ++ "x"⟩ "abc"
      = .error (wrapTypeErr "abc" (mismatchMsg "abc" "abcx")) :=
  (typeText_verifies_readback ⟨true, fun s => s ++ "x"⟩ "abc").2 rfl (by decide)

/-- C6: the title check of `verifyPageLoaded` succeeds for every rendered
title containing "mentor" case-insensitively, and fails with the
title-mismatch error on the title "404 Not Found". -/
theorem titleCheck_accepts_mentor_rejects_404 :
    (∀ title : String, includes (strToLower title) "mentor" = true → titleCheck title = .ok ()) ∧
    titleCheck "404 Not Found"
      = .error "Page title does not indicate mentoring page. Actual title: \"404 Not Found\"" := by
  constructor
  · intro title h
    simp [titleCheck, h]
  · rfl

/-- Witness for C6: a concrete mixed-case title containing "Mentor" passes
the title check. -/
theorem titleCheck_accepts_mentor_rejects_404_witness :
    titleCheck "Dealls Mentoring Hub" = .ok () :=
  titleCheck_accepts_mentor_rejects_404.1 "Dealls Mentoring Hub" (by decide)

/-- Helper: the running-maximum update of the selector loop is `Nat.max`. -/
lemma maxCountStep_eq_max (q : String → Option Nat) (cnt : String → Nat)
    (sel : String) (h : q sel = some (cnt sel)) (acc : Nat) :
    maxCountStep q acc sel = Nat.max acc (cnt sel) := by
  simp only [maxCountStep, h]
  by_cases hlt : cnt sel > acc
  · simp [hlt, Nat.max_eq_right (Nat.le_of_lt hlt)]
  · simp [hlt, Nat.max_eq_left (Nat.le_of_not_lt hlt)]

/-- Helper: over selectors whose queries all succeed, the selector loop of
`getMentorCount` folds to the maximum of the per-selector counts. -/
lemma foldl_maxCountStep (q : String → Option Nat) (cnt : String → Nat) :
    ∀ (l : List String), (∀ s ∈ l, q s = some (cnt s)) → ∀ acc : Nat,
      l.foldl (maxCountStep q) acc = (l.map cnt).foldl Nat.max acc := by
  intro l
  induction l with
  | nil => intro _ _; rfl
  | cons s t ih =>
    intro h acc
    simp only [List.foldl_cons, List.map_cons]
    rw [maxCountStep_eq_max q cnt s (h s (List.mem_cons_self s t)) acc]
    exact ih (fun x hx => h x (List.mem_cons_of_mem s hx)) (Nat.max acc (cnt s))

/-- C7: on a page where every candidate card selector matches zero elements
and a no-results indicator is visible, `getMentorCount` returns 0 and does
not throw. -/
theorem getMentorCount_no_results_zero (pg : ResultsPage)
    (hq : ∀ s ∈ cardSelectors, pg.query s = some 0)
    (hv : ∃ s ∈ noResultsSelectors, pg.visible s = true) :
    getMentorCount pg = .ok 0 := by
  have hfold : cardSelectors.foldl (maxCountStep pg.query) 0 = 0 := by
    rw [foldl_maxCountStep pg.query (fun _ => 0) cardSelectors hq 0]
    decide
  have hany : noResultsSelectors.any pg.visible = true := by
    rcases hv with ⟨s, hs, hvis⟩
    exact List.any_eq_true.mpr ⟨s, hs, hvis⟩
  simp [getMentorCount, hfold, hany]

/-- Witness for C7: a page answering zero matches to every query, with
`.no-results` visible, yields a count of 0. -/
theorem getMentorCount_no_results_zero_witness :
    getMentorCount ⟨fun _ => some 0, fun s => s == ".no-results"⟩ = .ok 0 :=
  getMentorCount_no_results_zero ⟨fun _ => some 0, fun s => s == ".no-results"⟩
    (by decide) (by decide)

/-- C10: when every candidate card selector query succeeds,
`getMentorCount` returns the maximum of the per-selector match counts over
all candidates (not the count from the first matching selector), and in
particular it returns 0 without throwing when every count is zero —
whether or not a no-results indicator is visible. -/
theorem getMentorCount_max_over_selectors (pg : ResultsPage) (cnt : String → Nat)
    (hq : ∀ s ∈ cardSelectors, pg.query s = some (cnt s)) :
    getMentorCount pg = .ok ((cardSelectors.map cnt).foldl Nat.max 0) := by
  have hfold := foldl_maxCountStep pg.query cnt cardSelectors hq 0
  simp only [getMentorCount, hfold]
  split
  · rfl
  · have hzero : (cardSelectors.map cnt).foldl Nat.max 0 = 0 :=
      Nat.eq_zero_of_not_pos (by assumption)
    rw [hzero]
    split <;> rfl

/-- Witness for C10: with `.card` matching 7 elements, every other selector
matching 2, and no no-results indicator visible, the count is the maximum
7, even though `.mentor-card` (matching 2) comes first in the list. -/
theorem getMentorCount_max_over_selectors_witness :
    getMentorCount ⟨fun s => some (if s = ".card" then 7 else 2), fun _ => false⟩ = .ok 7 :=
  getMentorCount_max_over_selectors
    ⟨fun s => some (if s = ".card" then 7 else 2), fun _ => false⟩
    (fun s => if s = ".card" then 7 else 2) (by decide)

/-- C9: configuration selection is keyed by the single `TEST_ENV`
environment variable; `getTestConfig` returns the development profile when
it is unset, and every possible value selects one of the three named
profiles development, staging, production. -/
theorem getTestConfig_selection :
    getTestConfig none = environmentConfigs_development ∧
    ∀ e : Option String,
      getTestConfig e = environmentConfigs_development ∨
      getTestConfig e = environmentConfigs_staging ∨
      getTestConfig e = environmentConfigs_production := by
  refine ⟨rfl, ?_⟩
  intro e
  cases e with
  | none => exact Or.inl rfl
  | some s =>
    by_cases h0 : s = ""
    · simp [getTestConfig, h0]
    · by_cases h1 : s = "staging"
      · simp [getTestConfig, h0, h1]
      · by_cases h2 : s = "production"
        · simp [getTestConfig, h0, h1, h2]
        · simp [getTestConfig, h0, h1, h2]

/-- Helper: the first-visible scan returns the earliest visible candidate:
if every candidate before `s` is invisible and `s` is visible, the scan
resolves to `s`. -/
lemma resolveFirst_earliest (vis : String → Bool) (pre post : List String) (s : String)
    (hs : vis s = true) (hpre : ∀ t ∈ pre, vis t = false) :
    resolveFirst vis (pre ++ s :: post) = some s := by
  induction pre with
  | nil => simp [resolveFirst, hs]
  | cons a t ih =>
    have ha : vis a = false := hpre a (List.mem_cons_self a t)
    simp only [List.cons_append, resolveFirst, ha, Bool.false_eq_true, if_false]
    exact ih fun x hx => hpre x (List.mem_cons_of_mem a hx)

/-- C4: a keyword that is empty or consists only of whitespace makes
`searchMentors` fail with the "keyword cannot be empty" error before any
driver interaction — the interaction trace is empty. -/
theorem searchMentors_empty_keyword_guard (pg : SearchPage) (keyword : String)
    (h : strTrim keyword = "") :
    searchMentors pg keyword = (.error "Search keyword cannot be empty", []) := by
  simp [searchMentors, h]

/-- Witness for C4: a whitespace-only keyword is rejected with no driver
interaction, on a page where every probe would succeed. -/
theorem searchMentors_empty_keyword_guard_witness :
    searchMentors ⟨true, fun _ => true, fun _ => true, fun _ => ⟨true, fun x => x⟩, fun _ => true⟩ "   "
      = (.error "Search keyword cannot be empty", []) :=
  searchMentors_empty_keyword_guard
    ⟨true, fun _ => true, fun _ => true, fun _ => ⟨true, fun x => x⟩, fun _ => true⟩ "   "
    (by decide)

/-- C1: when the ordered candidate list splits as `pre ++ s :: post` with
every candidate in `pre` invisible and `s` visible within the probe
timeout, `searchMentors` binds the search input to `s` — it types the
keyword into `s`, and into no other candidate. -/
theorem searchMentors_binds_earliest (pg : SearchPage) (keyword : String)
    (pre post : List String) (s : String)
    (hk : strTrim keyword ≠ "")
    (hload : pg.pageLoadOk = true)
    (hsplit : searchSelectors = pre ++ s :: post)
    (hs : pg.inputVisible s = true)
    (hpre : ∀ t ∈ pre, pg.inputVisible t = false) :
    DriverAction.typeInto s keyword ∈ (searchMentors pg keyword).2 ∧
    ∀ t text, DriverAction.typeInto t text ∈ (searchMentors pg keyword).2 → t = s := by
  have hne : ¬(keyword = "" ∨ strTrim keyword = "") := by
    rintro (h | h)
    · exact hk (by rw [h]; rfl)
    · exact hk h
  have hres : resolveFirst pg.inputVisible searchSelectors = some s := by
    rw [hsplit]; exact resolveFirst_earliest pg.inputVisible pre post s hs hpre
  rcases htype : typeText (pg.fieldOf s) keyword with e | u
  · refine ⟨?_, ?_⟩
    · simp [searchMentors, hne, hload, hres, htype]
    · intro t text ht
      simp [searchMentors, hne, hload, hres, htype] at ht
      tauto
  · rcases hbtn : resolveFirst pg.buttonVisible searchButtonSelectors with _ | btn
    · refine ⟨?_, ?_⟩
      · simp [searchMentors, hne, hload, hres, htype, hbtn]
      · intro t text ht
        simp [searchMentors, hne, hload, hres, htype, hbtn] at ht
        tauto
    · by_cases hclick : pg.clickOk btn
      · refine ⟨?_, ?_⟩
        · simp [searchMentors, hne, hload, hres, htype, hbtn, hclick]
        · intro t text ht
          simp [searchMentors, hne, hload, hres, htype, hbtn, hclick] at ht
          tauto
      · refine ⟨?_, ?_⟩
        · simp [searchMentors, hne, hload, hres, htype, hbtn, hclick]
        · intro t text ht
          simp [searchMentors, hne, hload, hres, htype, hbtn, hclick] at ht
          tauto

/-- Witness for C1: with only the second search-input candidate visible
(and the first one probed and invisible), `searchMentors` types the
keyword into the second candidate. -/
theorem searchMentors_binds_earliest_witness :
    DriverAction.typeInto "input[placeholder*=\"search\" i]" "Engineer"
      ∈ (searchMentors
          ⟨true, fun sel => sel == "input[placeholder*=\"search\" i]",
            fun _ => false, fun _ => ⟨true, fun x => x⟩, fun _ => true⟩
          "Engineer").2 :=
  (searchMentors_binds_earliest
    ⟨true, fun sel => sel == "input[placeholder*=\"search\" i]",
      fun _ => false, fun _ => ⟨true, fun x => x⟩, fun _ => true⟩
    "Engineer"
    ["input[type=\"search\"]"]
    ["input[placeholder*=\"cari\" i]", "input[placeholder*=\"mentor\" i]",
     ".search-input", "[data-testid*=\"search\"]", "input[name*=\"search\"]"]
    "input[placeholder*=\"search\" i]"
    (by decide) rfl rfl (by decide) (by decide)).1

/-- Counterexample for C2: with a mentor count that keeps changing (here it
equals the clock), the two samples disagree — 5000 and 9000 — yet no third
count is taken: the sample list of the stabilization phase has length 2,
not 3. -/
theorem stabilizeResults_no_third_sample :
    (stabilizeResults (fun t => t) 0).samples = [5000, 9000] ∧
    (stabilizeResults (fun t => t) 0).samples.length ≠ 3 := by
  decide

/-- C2 (amended): the stabilization phase always takes exactly two mentor
count samples; when they are unequal it performs exactly one more
settle-delay wait — without resampling — before accepting, and when they
are equal it accepts immediately with no extra wait. -/
theorem stabilizeResults_one_extra_wait (count : Nat → Nat) (t0 : Nat) :
    (stabilizeResults count t0).samples.length = 2 ∧
    ((stabilizeResults count t0).samples[0]? ≠ (stabilizeResults count t0).samples[1]? →
      (stabilizeResults count t0).endTime
        = t0 + 3000 + 2000 + settleDelay + 2000 + settleDelay) ∧
    ((stabilizeResults count t0).samples[0]? = (stabilizeResults count t0).samples[1]? →
      (stabilizeResults count t0).endTime = t0 + 3000 + 2000 + settleDelay + 2000) := by
  by_cases h : count (t0 + 3000 + 2000) = count (t0 + 3000 + 2000 + settleDelay + 2000)
  · simp [stabilizeResults, sampleCountAt, h]
  · simp [stabilizeResults, sampleCountAt, h]

/-- Witness for C2 (amended): with the clock-valued count the two samples
differ, so the phase ends after the one extra settle-delay wait. -/
theorem stabilizeResults_one_extra_wait_witness :
    (stabilizeResults (fun t => t) 0).endTime
      = 0 + 3000 + 2000 + settleDelay + 2000 + settleDelay :=
  (stabilizeResults_one_extra_wait (fun t => t) 0).2.1 (by decide)

/-- Helper: the sampled value of a timed `getMentorCount` call agrees with
the untimed `getMentorCount` of the page at the post-wait instant. -/
lemma getMentorCountTimed_value (pageAt : Nat → ResultsPage) (t : Nat) :
    Except.ok (getMentorCountTimed pageAt t).1 = getMentorCount (pageAt (t + 2000)) := by
  by_cases h : cardSelectors.foldl (maxCountStep (pageAt (t + 2000)).query) 0 > 0
  · simp [getMentorCountTimed, getMentorCount, h]
  · have h0 : cardSelectors.foldl (maxCountStep (pageAt (t + 2000)).query) 0 = 0 := by omega
    simp [getMentorCountTimed, getMentorCount, h, h0]

/-- Helper: the no-results scan advances the clock by at most 5000 ms per
scanned selector. -/
lemma noResultsScan_le (pageAt : Nat → ResultsPage) :
    ∀ (l : List String) (t : Nat), noResultsScan pageAt t l ≤ t + 5000 * l.length := by
  intro l
  induction l with
  | nil => intro t; simp [noResultsScan]
  | cons sel rest ih =>
    intro t
    simp only [noResultsScan, List.length_cons]
    split
    · omega
    · have := ih (t + 5000)
      omega

/-- Helper: a timed `getMentorCount` call ends no later than its fixed
2000 ms wait plus the six 5000 ms no-results probes. -/
lemma getMentorCountTimed_endTime_le (pageAt : Nat → ResultsPage) (t : Nat) :
    (getMentorCountTimed pageAt t).2 ≤ t + 2000 + 6 * 5000 := by
  have hlen : noResultsSelectors.length = 6 := rfl
  simp only [getMentorCountTimed]
  split
  · omega
  · have := noResultsScan_le pageAt noResultsSelectors (t + 2000)
    rw [hlen] at this
    simpa using Nat.le_trans this (by omega)

/-- Counterexample for C3: on a page where every candidate card selector
matches zero elements and no no-results indicator is visible, each of the
two samples blocks 2000 + 6 × 5000 ms inside `getMentorCount`, so the
stabilization phase takes 69000 ms of wall-clock time — far beyond the
claimed bound of 2 × settleDelay = 4000 ms (the two-sample half of the
claim does hold). -/
theorem stabilizeResultsTimed_exceeds_two_settle_delays :
    (stabilizeResultsTimed (fun _ => ⟨fun _ => some 0, fun _ => false⟩) 0).endTime = 69000 ∧
    ¬((stabilizeResultsTimed (fun _ => ⟨fun _ => some 0, fun _ => false⟩) 0).samples.length ≤ 2 ∧
      (stabilizeResultsTimed (fun _ => ⟨fun _ => some 0, fun _ => false⟩) 0).endTime - 0
        ≤ 2 * settleDelay) := by
  decide

/-- C3 (amended): the stabilization phase never takes more than two
mentor-count samples, and its wall-clock time is bounded by the constant
3000 + 2 × (2000 + 6 × 5000) + 2 × settleDelay = 71000 ms — the content
wait, two samples each costing at most the fixed 2000 ms wait plus six
5000 ms no-results probes, the settle delay, and at most one extra settle
delay — regardless of how long the underlying count keeps changing and of
which elements the page shows. -/
theorem stabilizeResultsTimed_bounded (pageAt : Nat → ResultsPage) (t0 : Nat) :
    (stabilizeResultsTimed pageAt t0).samples.length ≤ 2 ∧
    (stabilizeResultsTimed pageAt t0).endTime - t0
      ≤ 3000 + 2 * (2000 + 6 * 5000) + 2 * settleDelay := by
  have h1 := getMentorCountTimed_endTime_le pageAt (t0 + 3000)
  have h2 := getMentorCountTimed_endTime_le pageAt
    ((getMentorCountTimed pageAt (t0 + 3000)).2 + settleDelay)
  by_cases h : (getMentorCountTimed pageAt (t0 + 3000)).1
      = (getMentorCountTimed pageAt ((getMentorCountTimed pageAt (t0 + 3000)).2 + settleDelay)).1
  · refine ⟨by simp [stabilizeResultsTimed, h], ?_⟩
    simp only [stabilizeResultsTimed, if_pos h]
    simp only [settleDelay] at h1 h2 ⊢
    omega
  · refine ⟨by simp [stabilizeResultsTimed, h], ?_⟩
    simp only [stabilizeResultsTimed, if_neg h]
    simp only [settleDelay] at h1 h2 ⊢
    omega

end DeallsQA
